import Mathlib

/-!
Shallow embedding of the anchorbot command dispatcher.

The repository is a Matrix chat bot (`src/index.ts`) whose interesting core is
the `Room.timeline` message handler: it parses a message body into a command
token plus argument tokens and emits outbound protocol operations (notices,
structured messages, state-event publications, topic changes).  We embed the
handler as a pure function from an environment (configuration plus the
external collaborators' responses: the streamer-directory fetch result and the
room-member power-level lookup) and an inbound message event to the list of
outbound operations it performs, in order.

Two handler revisions are present in the repository and both are embedded:
  * `handleMessage`  — the current handler in `src/index.ts` (commands `!bot`,
    `!streamer`, and the curator-only `!view`/`!v`, `!end`/`!e`,
    `!announce`/`!a`).  It gates curator-only commands solely on the message
    originating in the curators room; it never consults the member lookup.
  * `handleMessageP1` — the older handler revision (second source file), which
    additionally reads `room.getMember(sender).powerLevel` for every
    curators-room message after `!bot`.  In JavaScript this read throws a
    TypeError when `getMember` returns null, so this embedding returns
    `Option (List Effect)`, with `none` modelling the thrown exception.
-/

/-- Wire-level view object, mirroring the JSON objects the bot publishes and
the `View` objects configured in the alias table.  `none` in an optional field
models the field being absent from the JavaScript object (so `'url' in view`
is `url.isSome`, and a falsy `title` is `none` or `some ""`). -/
structure ViewObj where
  kind : String
  title : Option String := none
  url : Option String := none
  fill : Option Bool := none
  hls : Option String := none
  dash : Option String := none
deriving DecidableEq

/-- The three configured room ids (`rooms.anchor`, `rooms.announcements`,
`rooms.curators` in the TOML configuration). -/
structure Rooms where
  anchor : String
  announcements : String
  curators : String
deriving DecidableEq

/-- One entry of the streamer directory fetched from
`GET <apiUrl>/streamers/index.json`. -/
structure Streamer where
  slug : String
  name : String
deriving DecidableEq

/-- Outbound operations the handler can perform through the Matrix client.
`sendMessage` is the structured `m.notice` message carrying the
`net.woke.streamer` payload; `fetchDirectory` records that the external
streamer-directory HTTP fetch was performed. -/
inductive Effect where
  | sendNotice (roomId text : String)
  | sendMessage (roomId body : String) (streamer : Streamer)
  | sendStateEvent (roomId eventType : String) (payload : ViewObj) (stateKey : String)
  | setRoomTopic (roomId topic : String)
  | fetchDirectory
deriving DecidableEq

/-- The handler's environment: configuration loaded at startup plus the
responses of the external collaborators.  `aliasMap` is the configured alias
table (`alias` is a reserved word in Lean, hence the name); `fetchResult` is
the outcome of the streamer-directory fetch (`none` = the fetch threw);
`getMember` is the curators-room member lookup, returning the member's power
level or `none` when the membership cannot be resolved (JS `null`). -/
structure Env where
  rooms : Rooms
  aliasMap : List (String × ViewObj)
  anchorUrl : String
  pkgName : String
  pkgVersion : String
  pkgHomepage : String
  fetchResult : Option (List Streamer)
  getMember : String → Option Int

/-- An inbound timeline event, reduced to the fields the handler reads. -/
structure MessageEvent where
  eventType : String
  roomId : String
  sender : String
  body : String

/-- Worker for `splitOnSpace`: scans the character list, cutting at every
single space character, accumulating the current token in reverse. -/
def splitChars : List Char → List Char → List String
  | [], acc => [String.mk acc.reverse]
  | c :: cs, acc =>
    if c = ' ' then String.mk acc.reverse :: splitChars cs []
    else splitChars cs (c :: acc)

/-- JavaScript `body.split(' ')`: split on every single space character; the
empty string yields `[""]`, and repeated spaces yield empty tokens. -/
def splitOnSpace (s : String) : List String :=
  splitChars s.data []

/-- JavaScript `parts.join(' ')`: rejoin tokens with single spaces. -/
def joinSpace : List String → String
  | [] => ""
  | [s] => s
  | s :: rest => s ++ " " ++ joinSpace rest

/-- `alias.get(key)`: exact (case-sensitive) string lookup in the alias
table. -/
def aliasGet : List (String × ViewObj) → String → Option ViewObj
  | [], _ => none
  | (a, v) :: rest, k => if a = k then some v else aliasGet rest k

/-- Alias resolution (src/index.ts lines 187-194): an exact alias hit returns
the configured view unchanged; otherwise a fallback embed view is synthesized
with `url` the first token and `fill` true exactly when the second argument
token is the string `"fill"` (`parts[1] === 'fill'`; an absent second token
compares unequal). -/
def resolveView (aliasMap : List (String × ViewObj)) (tok : String)
    (arg1 : Option String) : ViewObj :=
  match aliasGet aliasMap tok with
  | some v => v
  | none =>
    { kind := "embed", title := none, url := some tok,
      fill := some (arg1 == some "fill"), hls := none, dash := none }

/-- `matchKey` (src/index.ts line 153):
`s.toLowerCase().replace(/[^a-z]/g, '')` — lower-case, then keep only the
characters in `a`–`z`. -/
def matchKey (s : String) : String :=
  String.mk ((s.data.map Char.toLower).filter Char.isLower)

/-- The parenthesized fallback in src/index.ts line 197:
`'url' in view ? `<${view.url}>` : 'unknown'` — the url wrapped in angle
brackets when the field is present, else the placeholder `unknown`. -/
def urlFallback (v : ViewObj) : String :=
  match v.url with
  | some u => "<" ++ u ++ ">"
  | none => "unknown"

/-- `view.title || ('url' in view ? `<${view.url}>` : 'unknown')`
(src/index.ts line 197): the title when present and non-empty (truthy),
otherwise the url fallback. -/
def viewTitle (v : ViewObj) : String :=
  match v.title with
  | some t => if t = "" then urlFallback v else t
  | none => urlFallback v

/-- `view.title || view.url` in the older handler revision's notice: a falsy
title falls back to the url value itself (rendered `undefined` when the field
is absent, as JavaScript template interpolation would). -/
def urlTextP1 (v : ViewObj) : String :=
  match v.url with
  | some u => u
  | none => "undefined"

/-- The older handler revision's notice title: `view.title || view.url`. -/
def viewTitleP1 (v : ViewObj) : String :=
  match v.title with
  | some t => if t = "" then urlTextP1 v else t
  | none => urlTextP1 v

/-- The `!bot` reply text: `🤖 ${pkg.name} v${pkg.version} (${pkg.homepage})`. -/
def botLine (env : Env) : String :=
  "🤖 " ++ env.pkgName ++ " v" ++ env.pkgVersion ++ " (" ++ env.pkgHomepage ++ ")"

/-- The state event type the view is published under. -/
def AnchorViewEventType : String := "net.woke.anchor.view"

/-- The `{ kind: 'offline' }` payload published by `!end`. -/
def offlinePayload : ViewObj :=
  { kind := "offline" }

/-- JavaScript truthiness of `parts[0]`: the first argument token exists and
is non-empty. -/
def firstArgTruthy : List String → Bool
  | [] => false
  | a :: _ => a != ""

/-- The current `Room.timeline` handler of `src/index.ts` (lines 124-215),
embedded as the ordered list of outbound operations it performs.  Early
`return`s become `[]`; the `for` loop over `[rooms.anchor, rooms.curators]`
is unrolled into its two notices. -/
def handleMessage (env : Env) (ev : MessageEvent) : List Effect :=
  if ev.eventType = "m.room.message" then
    if ev.body = "" then []
    else
      match splitOnSpace ev.body with
      | [] => []
      | cmd :: args =>
        if cmd = "!bot" then
          [Effect.sendNotice ev.roomId (botLine env)]
        else if cmd = "!streamer" ∧ firstArgTruthy args = true then
          match env.fetchResult with
          | none => [Effect.fetchDirectory]
          | some streamers =>
            match streamers.find? (fun s => matchKey s.slug == matchKey (args.headD "")) with
            | some st =>
              [Effect.fetchDirectory,
               Effect.sendMessage env.rooms.anchor
                 (st.name ++ ": " ++ env.anchorUrl ++ "/streamers/" ++ st.slug) st]
            | none => [Effect.fetchDirectory]
        else if ev.roomId = env.rooms.curators then
          if cmd = "!view" ∨ cmd = "!v" then
            match args with
            | [] => [Effect.sendNotice ev.roomId "Please use !end to clear the view."]
            | a0 :: rest =>
              let view := resolveView env.aliasMap a0 rest.head?
              [Effect.sendStateEvent env.rooms.anchor AnchorViewEventType view "",
               Effect.sendNotice env.rooms.anchor ("Now viewing: " ++ viewTitle view),
               Effect.sendNotice env.rooms.curators ("Now viewing: " ++ viewTitle view)]
          else if cmd = "!end" ∨ cmd = "!e" then
            [Effect.sendStateEvent env.rooms.anchor AnchorViewEventType offlinePayload "",
             Effect.sendNotice env.rooms.curators "Broadcast ended."]
          else if cmd = "!announce" ∨ cmd = "!a" then
            [Effect.setRoomTopic env.rooms.anchor (joinSpace args),
             Effect.sendNotice env.rooms.announcements (joinSpace args),
             Effect.sendNotice env.rooms.curators "Announcement sent."]
          else []
        else []
  else []

/-- The older handler revision (second source file, `Room.timeline` handler):
after `!bot`, every curators-room message reads
`room.getMember(event.getSender()).powerLevel`.  A `none` member lookup makes
that read throw a TypeError in JavaScript, modelled here by returning `none`;
all non-throwing paths return `some` of their ordered operations. -/
def handleMessageP1 (env : Env) (ev : MessageEvent) : Option (List Effect) :=
  if ev.eventType = "m.room.message" then
    if ev.body = "" then some []
    else
      match splitOnSpace ev.body with
      | [] => some []
      | cmd :: args =>
        if cmd = "!bot" then
          some [Effect.sendNotice ev.roomId (botLine env)]
        else if ev.roomId = env.rooms.curators then
          match env.getMember ev.sender with
          | none => none
          | some pl =>
            if pl < 50 then some []
            else if cmd = "!view" ∨ cmd = "!v" then
              match args with
              | [] => some [Effect.sendNotice ev.roomId "Please use !end to clear the view."]
              | a0 :: rest =>
                let view := resolveView env.aliasMap a0 rest.head?
                some [Effect.sendStateEvent env.rooms.anchor AnchorViewEventType view "",
                      Effect.sendNotice env.rooms.anchor ("Now viewing: " ++ viewTitleP1 view),
                      Effect.sendNotice env.rooms.curators ("Now viewing: " ++ viewTitleP1 view)]
            else if cmd = "!end" ∨ cmd = "!e" then
              some [Effect.sendStateEvent env.rooms.anchor AnchorViewEventType offlinePayload "",
                    Effect.sendNotice env.rooms.curators "Broadcast ended."]
            else if cmd = "!announce" ∨ cmd = "!a" then
              some [Effect.setRoomTopic env.rooms.anchor (joinSpace args),
                    Effect.sendNotice env.rooms.announcements (joinSpace args),
                    Effect.sendNotice env.rooms.curators "Announcement sent."]
            else some []
        else some []
  else some []

/-- A concrete room configuration used in the concrete scenarios below. -/
def roomsX : Rooms :=
  { anchor := "!anchor:x", announcements := "!ann:x", curators := "!cur:x" }

/-- The configured `demo` alias of the spec's scenario: an embed view of
`https://x/demo`, no title, `fill` false. -/
def demoView : ViewObj :=
  { kind := "embed", url := some "https://x/demo", fill := some false }

/-- A base environment for the concrete scenarios. -/
def baseEnv : Env :=
  { rooms := roomsX
    aliasMap := []
    anchorUrl := "https://woke.net"
    pkgName := "anchorbot"
    pkgVersion := "0.2.0"
    pkgHomepage := "https://github.com/wokenet/anchorbot"
    fetchResult := none
    getMember := fun _ => some 100 }

/-- Environment whose member lookup reports power level 0 for everyone. -/
def env1 : Env := { baseEnv with getMember := fun _ => some 0 }

/-- An `!end` message in the curators room from the power-0 sender. -/
def ev1 : MessageEvent :=
  { eventType := "m.room.message", roomId := "!cur:x", sender := "@mallory:x",
    body := "!end" }

/-- Environment whose member lookup cannot resolve anyone (JS `null`). -/
def env2 : Env := { baseEnv with getMember := fun _ => none }

/-- An `!end` message in the curators room from an unresolvable sender. -/
def ev2 : MessageEvent :=
  { eventType := "m.room.message", roomId := "!cur:x", sender := "@ghost:x",
    body := "!end" }

/-- Environment with the `demo` alias configured. -/
def env4 : Env := { baseEnv with aliasMap := [("demo", demoView)] }

/-- A `!view demo` message in the curators room. -/
def ev4 : MessageEvent :=
  { eventType := "m.room.message", roomId := "!cur:x", sender := "@alice:x",
    body := "!view demo" }

/-- A `!view` message with no arguments in the curators room. -/
def ev5 : MessageEvent :=
  { eventType := "m.room.message", roomId := "!cur:x", sender := "@alice:x",
    body := "!view" }

/-- An `!end` message sent in the anchor room (not the curators room). -/
def ev6 : MessageEvent :=
  { eventType := "m.room.message", roomId := "!anchor:x", sender := "@alice:x",
    body := "!end" }

/-- An `!end` message with a stray argument in the curators room. -/
def ev7 : MessageEvent :=
  { eventType := "m.room.message", roomId := "!cur:x", sender := "@alice:x",
    body := "!end now" }

/-- An `!announce Going live now` message in the curators room. -/
def ev8 : MessageEvent :=
  { eventType := "m.room.message", roomId := "!cur:x", sender := "@alice:x",
    body := "!announce Going live now" }

/-- The streamer-directory entry of the spec's scenario. -/
def streamerABC : Streamer := { slug := "a-b-c", name := "ABC" }

/-- Environment whose directory fetch succeeds with the single entry above. -/
def env9 : Env := { baseEnv with fetchResult := some [streamerABC] }

/-- A `!streamer abc` message (sent from the anchor room; the command is not
curator-gated). -/
def ev9 : MessageEvent :=
  { eventType := "m.room.message", roomId := "!anchor:x", sender := "@u:x",
    body := "!streamer abc" }

/-- A bare `!streamer` message with no argument token. -/
def ev10 : MessageEvent :=
  { eventType := "m.room.message", roomId := "!cur:x", sender := "@u:x",
    body := "!streamer" }

/-- Claim C1, counterexample.  A sender whose power level in the curators room
is 0 (below 50) sends `!end` there; the current handler nevertheless publishes
the `{kind: offline}` state event to the anchor room and sends a notice to the
curators room — not a silent no-op. -/
theorem c1_counterexample :
    env1.getMember ev1.sender = some 0 ∧ ((0 : Int) < 50) ∧
    handleMessage env1 ev1 =
      [Effect.sendStateEvent "!anchor:x" AnchorViewEventType offlinePayload "",
       Effect.sendNotice "!cur:x" "Broadcast ended."] ∧
    handleMessage env1 ev1 ≠ [] :=
  ⟨rfl, by decide, by decide, by decide⟩

/-- Claim C1, amended.  The current handler performs no power-level check at
all: its effects are identical under any member-lookup function, so a sender
with power level below 50 in the curators room triggers exactly the same
effects as any other sender; only the origin-room check gates the
curator-only commands. -/
theorem c1_no_power_gate (env : Env) (g : String → Option Int) (ev : MessageEvent) :
    handleMessage { env with getMember := g } ev = handleMessage env ev := rfl

/-- Claim C2, counterexample.  In the handler revision that does look up the
sender (`handleMessageP1`), an unresolvable membership (`getMember` = none)
for a curator-only command makes the `powerLevel` read throw (modelled by
`none`); the command is not treated as an unauthorized silent no-op
(`some []`). -/
theorem c2_counterexample :
    env2.getMember ev2.sender = none ∧
    handleMessageP1 env2 ev2 = none ∧
    handleMessageP1 env2 ev2 ≠ some [] :=
  ⟨rfl, by decide, by decide⟩

/-- Claim C2, amended.  In the handler revision with the power-level check,
any curators-room message other than `!bot` whose sender membership cannot be
resolved makes the handler throw (result `none`), rather than being treated
as unauthorized; the current handler never consults the membership at all. -/
theorem c2_null_member_throws (env : Env) (ev : MessageEvent) (cmd : String)
    (args : List String)
    (htype : ev.eventType = "m.room.message") (hbody : ev.body ≠ "")
    (hsplit : splitOnSpace ev.body = cmd :: args) (hbot : cmd ≠ "!bot")
    (hroom : ev.roomId = env.rooms.curators)
    (hmem : env.getMember ev.sender = none) :
    handleMessageP1 env ev = none := by
  simp [handleMessageP1, htype, hbody, hsplit, hbot, hroom, hmem]

/-- Witness for `c2_null_member_throws` at the concrete `!end` event. -/
theorem c2_null_member_throws_witness : handleMessageP1 env2 ev2 = none :=
  c2_null_member_throws env2 ev2 "!end" [] rfl (by decide) (by decide) (by decide)
    rfl rfl

/-- Claim C3 (confirmed).  Alias resolution: a token that exactly matches a
configured alias name resolves to the configured view unchanged; a token not
in the table resolves to an embed view whose url is the token and whose fill
is true exactly when the second argument token is the string `"fill"`. -/
theorem c3_resolve (aliasMap : List (String × ViewObj)) (tok : String)
    (arg1 : Option String) :
    (∀ v, aliasGet aliasMap tok = some v → resolveView aliasMap tok arg1 = v) ∧
    (aliasGet aliasMap tok = none →
      resolveView aliasMap tok arg1 =
        { kind := "embed", title := none, url := some tok,
          fill := some (arg1 == some "fill"), hls := none, dash := none }) := by
  constructor
  · intro v hv
    simp [resolveView, hv]
  · intro hv
    simp [resolveView, hv]

/-- Witness for `c3_resolve`: the configured `demo` alias is returned
unchanged, and an unknown token with second token `"fill"` yields the
fallback embed view with fill true. -/
theorem c3_resolve_witness :
    resolveView [("demo", demoView)] "demo" none = demoView ∧
    resolveView [("demo", demoView)] "zzz" (some "fill") =
      { kind := "embed", title := none, url := some "zzz", fill := some true,
        hls := none, dash := none } :=
  ⟨(c3_resolve [("demo", demoView)] "demo" none).1 demoView (by decide),
   (c3_resolve [("demo", demoView)] "zzz" (some "fill")).2 (by decide)⟩

/-- Claim C4, counterexample.  For `!view demo` with the `demo` alias mapping
to a title-less embed view of `https://x/demo`, the notices sent to the
anchor and curators rooms read `Now viewing: <https://x/demo>` — the URL
fallback is wrapped in angle brackets — and no notice with the claimed text
`Now viewing: https://x/demo` is sent. -/
theorem c4_counterexample :
    handleMessage env4 ev4 =
      [Effect.sendStateEvent "!anchor:x" AnchorViewEventType demoView "",
       Effect.sendNotice "!anchor:x" "Now viewing: <https://x/demo>",
       Effect.sendNotice "!cur:x" "Now viewing: <https://x/demo>"] ∧
    Effect.sendNotice "!anchor:x" "Now viewing: https://x/demo" ∉
      handleMessage env4 ev4 ∧
    Effect.sendNotice "!cur:x" "Now viewing: https://x/demo" ∉
      handleMessage env4 ev4 := by
  decide

/-- Claim C4, amended.  For the successful `!view demo` scenario, the
configured view is published as anchor-room state, and the anchor room and
curators room each receive exactly one notice whose text is exactly
`Now viewing: <https://x/demo>` (the URL fallback wrapped in angle
brackets). -/
theorem c4_view_demo_notices :
    handleMessage env4 ev4 =
      [Effect.sendStateEvent "!anchor:x" AnchorViewEventType demoView "",
       Effect.sendNotice "!anchor:x" "Now viewing: <https://x/demo>",
       Effect.sendNotice "!cur:x" "Now viewing: <https://x/demo>"] := by
  decide

/-- Claim C5 (confirmed).  A `!view` (or `!v`) message with zero argument
tokens, sent in the curators room, publishes no state event and changes no
topic: its only effect is the single notice `Please use !end to clear the
view.` to the originating room. -/
theorem c5_view_no_args (env : Env) (ev : MessageEvent)
    (htype : ev.eventType = "m.room.message")
    (hbody : ev.body = "!view" ∨ ev.body = "!v")
    (hroom : ev.roomId = env.rooms.curators) :
    handleMessage env ev =
      [Effect.sendNotice ev.roomId "Please use !end to clear the view."] := by
  have h1 : splitOnSpace "!view" = ["!view"] := by decide
  have h2 : splitOnSpace "!v" = ["!v"] := by decide
  rcases hbody with h | h <;> simp [handleMessage, htype, h, h1, h2, hroom]

/-- Witness for `c5_view_no_args` at the concrete bare `!view` event. -/
theorem c5_view_no_args_witness :
    handleMessage baseEnv ev5 =
      [Effect.sendNotice "!cur:x" "Please use !end to clear the view."] :=
  c5_view_no_args baseEnv ev5 rfl (Or.inl rfl) rfl

/-- Claim C6 (confirmed).  A curator-only command (`!view`/`!v`, `!end`/`!e`,
`!announce`/`!a`) arriving in any room other than the configured curators
room produces no effects at all, regardless of the sender (the current
handler consults no power level anywhere). -/
theorem c6_wrong_room_noop (env : Env) (ev : MessageEvent) (cmd : String)
    (args : List String)
    (hsplit : splitOnSpace ev.body = cmd :: args)
    (hcmd : cmd ∈ (["!view", "!v", "!end", "!e", "!announce", "!a"] : List String))
    (hroom : ev.roomId ≠ env.rooms.curators) :
    handleMessage env ev = [] := by
  by_cases htype : ev.eventType = "m.room.message"
  · by_cases hbody : ev.body = ""
    · simp [handleMessage, htype, hbody]
    · fin_cases hcmd <;> simp [handleMessage, htype, hbody, hsplit, hroom]
  · simp [handleMessage, htype]

/-- Witness for `c6_wrong_room_noop`: `!end` sent in the anchor room is a
no-op. -/
theorem c6_wrong_room_noop_witness : handleMessage baseEnv ev6 = [] :=
  c6_wrong_room_noop baseEnv ev6 "!end" [] (by decide) (by decide) (by decide)

/-- Claim C7 (confirmed).  An `!end` (or `!e`) message accepted in the
curators room — whatever its arguments — publishes exactly one state event,
the `{kind: offline}` payload, to the anchor room under the view event type
with empty state key, and sends one notice (`Broadcast ended.`) to the
curators room. -/
theorem c7_end_offline (env : Env) (ev : MessageEvent) (cmd : String)
    (args : List String)
    (htype : ev.eventType = "m.room.message") (hbody : ev.body ≠ "")
    (hsplit : splitOnSpace ev.body = cmd :: args)
    (hcmd : cmd = "!end" ∨ cmd = "!e")
    (hroom : ev.roomId = env.rooms.curators) :
    handleMessage env ev =
      [Effect.sendStateEvent env.rooms.anchor AnchorViewEventType offlinePayload "",
       Effect.sendNotice env.rooms.curators "Broadcast ended."] := by
  rcases hcmd with h | h <;> subst h <;>
    simp [handleMessage, htype, hbody, hsplit, hroom]

/-- Witness for `c7_end_offline`: `!end now` in the curators room publishes
the offline payload despite the stray argument. -/
theorem c7_end_offline_witness :
    handleMessage baseEnv ev7 =
      [Effect.sendStateEvent "!anchor:x" AnchorViewEventType offlinePayload "",
       Effect.sendNotice "!cur:x" "Broadcast ended."] :=
  c7_end_offline baseEnv ev7 "!end" ["now"] rfl (by decide) (by decide)
    (Or.inl rfl) rfl

/-- Claim C8 (confirmed).  An `!announce` (or `!a`) message accepted in the
curators room rejoins its argument tokens with single spaces into a text T
and performs exactly three effects, in order: set the anchor room's topic to
T, send T as a notice to the announcements room, and send `Announcement
sent.` as a notice to the curators room. -/
theorem c8_announce (env : Env) (ev : MessageEvent) (cmd : String)
    (args : List String)
    (htype : ev.eventType = "m.room.message") (hbody : ev.body ≠ "")
    (hsplit : splitOnSpace ev.body = cmd :: args)
    (hcmd : cmd = "!announce" ∨ cmd = "!a")
    (hroom : ev.roomId = env.rooms.curators) :
    handleMessage env ev =
      [Effect.setRoomTopic env.rooms.anchor (joinSpace args),
       Effect.sendNotice env.rooms.announcements (joinSpace args),
       Effect.sendNotice env.rooms.curators "Announcement sent."] := by
  rcases hcmd with h | h <;> subst h <;>
    simp [handleMessage, htype, hbody, hsplit, hroom]

/-- Witness for `c8_announce`: the spec's `!announce Going live now`
scenario. -/
theorem c8_announce_witness :
    handleMessage baseEnv ev8 =
      [Effect.setRoomTopic "!anchor:x" "Going live now",
       Effect.sendNotice "!ann:x" "Going live now",
       Effect.sendNotice "!cur:x" "Announcement sent."] :=
  c8_announce baseEnv ev8 "!announce" ["Going", "live", "now"] rfl (by decide)
    (by decide) (Or.inl rfl) rfl

/-- Claim C9 (confirmed).  For `!streamer <name>` with a non-empty name and a
successful directory fetch, the name is matched against each entry's slug
with both sides normalized by `matchKey` (lower-case, keep only `a`–`z`):
when some entry matches, the only message effect is one structured message to
the anchor room referencing that streamer; when no entry matches, no message
is sent (only the fetch itself happened). -/
theorem c9_streamer_match (env : Env) (ev : MessageEvent) (a0 : String)
    (rest : List String) (streamers : List Streamer)
    (htype : ev.eventType = "m.room.message")
    (hsplit : splitOnSpace ev.body = "!streamer" :: a0 :: rest)
    (ha0 : a0 ≠ "")
    (hfetch : env.fetchResult = some streamers) :
    (∀ st, streamers.find? (fun s => matchKey s.slug == matchKey a0) = some st →
       handleMessage env ev =
         [Effect.fetchDirectory,
          Effect.sendMessage env.rooms.anchor
            (st.name ++ ": " ++ env.anchorUrl ++ "/streamers/" ++ st.slug) st]) ∧
    (streamers.find? (fun s => matchKey s.slug == matchKey a0) = none →
       handleMessage env ev = [Effect.fetchDirectory]) := by
  have hbody : ev.body ≠ "" := by
    intro h
    rw [h, show splitOnSpace "" = [""] from by decide] at hsplit
    simp at hsplit
  constructor
  · intro st hst
    simp [handleMessage, htype, hbody, hsplit, ha0, firstArgTruthy, hfetch, hst]
  · intro hst
    simp [handleMessage, htype, hbody, hsplit, ha0, firstArgTruthy, hfetch, hst]

/-- Witness for `c9_streamer_match`: the spec's scenario — `!streamer abc`
against the directory entry `{slug: "a-b-c", name: "ABC"}` matches after
normalization and produces the structured anchor-room message. -/
theorem c9_streamer_match_witness :
    handleMessage env9 ev9 =
      [Effect.fetchDirectory,
       Effect.sendMessage "!anchor:x" "ABC: https://woke.net/streamers/a-b-c"
         streamerABC] :=
  (c9_streamer_match env9 ev9 "abc" [] [streamerABC] rfl (by decide) (by decide)
    rfl).1 streamerABC (by decide)

/-- Claim C10 (confirmed).  A `!streamer` message whose first argument token
is missing or empty never takes the streamer branch: the handler performs no
fetch and sends nothing (the effect list is empty, whatever the room). -/
theorem c10_streamer_no_arg (env : Env) (ev : MessageEvent) (args : List String)
    (hsplit : splitOnSpace ev.body = "!streamer" :: args)
    (hempty : args = [] ∨ ∃ rest, args = "" :: rest) :
    handleMessage env ev = [] := by
  by_cases htype : ev.eventType = "m.room.message"
  · by_cases hbody : ev.body = ""
    · simp [handleMessage, htype, hbody]
    · rcases hempty with h | ⟨rest, h⟩ <;> subst h <;>
        by_cases hroom : ev.roomId = env.rooms.curators <;>
          simp [handleMessage, htype, hbody, hsplit, hroom, firstArgTruthy]
  · simp [handleMessage, htype]

/-- Witness for `c10_streamer_no_arg` at the concrete bare `!streamer`
event. -/
theorem c10_streamer_no_arg_witness : handleMessage baseEnv ev10 = [] :=
  c10_streamer_no_arg baseEnv ev10 [] (by decide) (Or.inl rfl)
